import Mathlib

/-!
Verification of the overlay snapshotter of this containerd distribution.

The definitions below are shallow embeddings of the Go source:
  * the archive whiteout conversion (package archive),
  * the overlaybd read-only driver (package overlaybd: PreProcess,
    ActiveMount, doOverlayBD, the readiness poll loop),
  * the overlaybd config construction (package config),
  * the sparse-file quota provider (package sparsefile),
  * the overlay snapshotter orchestrator (package overlay: Prepare,
    Active, Mounts, getCleanupDirectories, getActiveQuota, path helpers).

Filesystem and process side effects are made explicit: functions either
return the list of effects they perform or thread an explicit state, and
each fallible external step is a boolean or option in an environment
record, so that every control path of the source is represented.
-/

namespace OverlaySnap

/-! ## Path helpers (Go path/filepath semantics for the paths in use)

Simplified to the cleaned, slash-separated paths that the snapshotter
manipulates (no trailing slashes, no dot-dot segments). -/

/-- Split a path into its non-empty components (helper over chars). -/
def splitCompsAux : List Char → List Char → List (List Char)
  | [], acc => [acc.reverse]
  | c :: cs, acc => if c = '/' then acc.reverse :: splitCompsAux cs [] else splitCompsAux cs (c :: acc)

/-- The non-empty slash-separated components of a path. -/
def pathComps (p : String) : List String :=
  ((splitCompsAux p.data []).filter (fun cs => cs ≠ [])).map (fun cs => String.mk cs)

/-- Whether a path is absolute (Go filepath.IsAbs on linux). -/
def isAbsPath (p : String) : Bool :=
  match p.data with
  | '/' :: _ => true
  | _ => false

/-- Go filepath.Base for cleaned paths. -/
def goBase (p : String) : String :=
  match (pathComps p).getLast? with
  | some c => c
  | none => if p = "" then "." else "/"

/-- Join components with slashes (helper). -/
def joinComps : List String → String
  | [] => ""
  | [c] => c
  | c :: rest => c ++ "/" ++ joinComps rest

/-- Go filepath.Dir for cleaned paths. -/
def goDir (p : String) : String :=
  let comps := pathComps p
  let front := comps.dropLast
  if front = [] then (if isAbsPath p then "/" else ".")
  else (if isAbsPath p then "/" else "") ++ joinComps front

/-- Go filepath.Join of two cleaned components. -/
def goJoin (a b : String) : String :=
  if a = "" then b else a ++ "/" ++ b

/-- List of chars prefix test (helper for String.HasPrefix). -/
def startsWithL : List Char → List Char → Bool
  | [], _ => true
  | _ :: _, [] => false
  | c :: cs, d :: ds => c = d && startsWithL cs ds

/-- Go strings.HasPrefix. -/
def strHasPre (s pre : String) : Bool := startsWithL pre.data s.data

/-- Drop the first n characters of a string (Go s[n:] for ASCII). -/
def dropChars (n : Nat) (s : String) : String := String.mk (s.data.drop n)

/-- Association-list lookup, first match wins (Go map read / config read). -/
def lookupA {β : Type} : List (String × β) → String → Option β
  | [], _ => none
  | (k, v) :: rest, key => if k = key then some v else lookupA rest key

/-- Whether an Except is an error. -/
def isErr {α β : Type} : Except α β → Bool
  | .error _ => true
  | .ok _ => false

/-! ## Archive whiteout conversion (source: package archive, OverlayConvertWhiteout)

The whiteout marker constants live in the archive package of the wider
repository, outside the provided sources.
Modelled from the spec: the whiteout prefix is the `.wh.` seen in the
spec's `.wh.foo` example (stripping it yields `foo`), and the opaque-dir
marker is `.wh..wh..opq`. -/

/-- Modelled from the spec: the archive whiteout marker `.wh.`. -/
def whiteoutMark : String := ".wh."

/-- Modelled from the spec: the archive opaque-directory marker `.wh..wh..opq`. -/
def whiteoutOpaqueDir : String := ".wh..wh..opq"

/-- A filesystem side effect requested by the whiteout conversion. -/
inductive WhEffect
  | setOpaque (dir : String) (value : String)
  | mknodChar (p : String) (major minor : Nat)
  | chown (p : String) (uid gid : Int)
deriving DecidableEq, Repr

/-- Embedding of OverlayConvertWhiteout: given the tar header's uid/gid and
the entry path, returns whether the entry is kept and the effects performed. -/
def OverlayConvertWhiteout (uid gid : Int) (p : String) : Bool × List WhEffect :=
  let base := goBase p
  let dir := goDir p
  if base = whiteoutOpaqueDir then
    (false, [.setOpaque dir "y"])
  else if strHasPre base whiteoutMark then
    let originalBase := dropChars whiteoutMark.data.length base
    let originalPath := goJoin dir originalBase
    (false, [.mknodChar originalPath 0 0, .chown originalPath uid gid])
  else
    (true, [])

/-! ## Readiness poll loop (source: doOverlayBD, part_004 lines 256-277,
and the `timeout` constant of part_003) -/

/-- The driver timeout constant, in seconds. -/
def timeout : Nat := 20

/-- Number of poll iterations: timeoutInSec * 1000 / 20 ms. -/
def retryTimes : Nat := timeout * 1000 / 20

/-- Outcome of the readiness wait on the debug-log file. -/
inductive ReadinessResult
  | ok
  | fatal (content : String)
  | timedOut
deriving DecidableEq, Repr

/-- One pass of the readiness loop: `poll i` is the content read at
iteration i (`none` = the read itself failed). Mirrors the loop body:
unreadable ⇒ retry; content `success` ⇒ done; any other content ⇒
immediate fatal error carrying that content. -/
def readinessAux (poll : Nat → Option String) (i : Nat) : Nat → ReadinessResult
  | 0 => .timedOut
  | fuel + 1 =>
    match poll i with
    | none => readinessAux poll (i + 1) fuel
    | some d => if d = "success" then .ok else .fatal d

/-- Embedding of the readiness wait of doOverlayBD. -/
def readinessResult (poll : Nat → Option String) : ReadinessResult :=
  readinessAux poll 0 retryTimes

/-- The first readable poll content within the given number of iterations. -/
def firstRead (poll : Nat → Option String) (i : Nat) : Nat → Option String
  | 0 => none
  | fuel + 1 =>
    match poll i with
    | none => firstRead poll (i + 1) fuel
    | some d => some d

theorem readinessAux_eq_firstRead (poll : Nat → Option String) :
    ∀ fuel i, readinessAux poll i fuel =
      (match firstRead poll i fuel with
        | none => ReadinessResult.timedOut
        | some d => if d = "success" then .ok else .fatal d) := by
  intro fuel
  induction fuel with
  | zero => intro i; rfl
  | succ n ih =>
    intro i
    unfold readinessAux firstRead
    cases poll i with
    | none => exact ih (i + 1)
    | some d => rfl

/-! ## Overlaybd config construction (source: package config in
snapshots/overlay/overlaybd, and PreProcess in part_004)

The JSON layer is modelled at the structure level: a config file system
maps paths to decoded Config values, which is adequate because the source
only ever reads back what it wrote (write-temp-rename via
continuity.AtomicWriteFile is atomic, so a path maps to one value). -/

def configFile : String := "config.v1.json"

def gzipIndexFile : String := "gzip.meta"

def ext4FSMetaFile : String := "ext4.fs.meta"

def overlaybdBaseLayerDir : String := "/opt/overlaybd/baselayers"

def imageRefLabel : String := "containerd.io/snapshot/cri.image-ref"

def labelKeyOverlayBDBlobDigest : String := "containerd.io/snapshot/overlaybd/blob-digest"

def labelKeyOverlayBDBlobSize : String := "containerd.io/snapshot/overlaybd/blob-size"

def labelTurboOCIDigest : String := "containerd.io/snapshot/overlaybd/turbo-oci/target-digest"

def labelTurboOCIMediaType : String := "containerd.io/snapshot/overlaybd/turbo-oci/target-media-type"

/-- LowerConfig of the config package (the JSON field names elided). -/
structure LowerConfig where
  file : String := ""
  digest : String := ""
  size : Nat := 0
  dir : String := ""
  targetDigest : String := ""
  gzipIndex : String := ""
deriving DecidableEq, Repr

/-- UpperConfig of the config package. -/
structure UpperConfig where
  index : String := ""
  data : String := ""
deriving DecidableEq, Repr

/-- Config of the config package (fields not touched by these claims kept
with their source defaults). -/
structure OBDConfig where
  imageRef : String := ""
  repoBlobURL : String := ""
  lowers : List LowerConfig := []
  upper : UpperConfig := {}
  resultFile : String := ""
  recordTracePath : String := ""
deriving DecidableEq, Repr

/-- The config files on disk, newest write first. -/
abbrev ConfFS := List (String × OBDConfig)

/-- ReadConfig: read and decode the config file at a path. -/
def readConfig (fs : ConfFS) (p : String) : Except String OBDConfig :=
  match lookupA fs p with
  | some c => .ok c
  | none => .error ("failed to read config file " ++ p)

/-- WriteConfig: atomically (re)write the config file at a path. -/
def writeConfig (fs : ConfFS) (p : String) (c : OBDConfig) : ConfFS :=
  (p, c) :: fs

/-- OverlaybdInitDebuglogPath. -/
def OverlaybdInitDebuglogPath (dir : String) : String := goJoin dir "init-debug.log"

/-- Modelled from the spec: reference.Parse of the containerd reference
package (outside the provided sources) splits a valid image reference into
registry host and repository, from which the blob prefix
https://host/v2/repo/blobs is built; an invalid reference is an error.
The parser itself is abstracted as a parameter. -/
abbrev RefParser := String → Option (String × String)

/-- constructImageBlobURL over an abstract reference parser. -/
def constructImageBlobURL (parseRef : RefParser) (ref : String) : Except String String :=
  match parseRef ref with
  | none => .error ("invalid repo url " ++ ref)
  | some (host, repo) => .ok ("https://" ++ host ++ "/v2/" ++ repo ++ "/blobs")

/-- isGzipLayer of the config package (the OCI and docker gzip layer
media types of the image-spec libraries). -/
def isGzipLayer (mediaType : String) : Bool :=
  mediaType = "application/vnd.oci.image.layer.v1.tar+gzip" ||
  mediaType = "application/vnd.docker.image.rootfs.diff.tar.gzip"

/-- Decimal digit accumulation (helper for strconv.Atoi). -/
def digitsValAux : List Char → Nat → Option Nat
  | [], acc => some acc
  | c :: cs, acc => if c.isDigit then digitsValAux cs (acc * 10 + (c.toNat - 48)) else none

/-- strconv.Atoi on an unsigned decimal, with the ignored error of the
source (a failed parse gives 0). -/
def atoiD (s : String) : Nat :=
  match s.data with
  | [] => 0
  | l => (digitsValAux l 0).getD 0

/-- ConstructOverlayBDSpec: the plain descriptor construction. -/
def ConstructOverlayBDSpec (parseRef : RefParser) (fs : ConfFS) (parent : String)
    (labels : List (String × String)) (snDir parentDir blobDigest blobSize : String) :
    Except String ConfFS :=
  match lookupA labels imageRefLabel with
  | none => .error "no image-ref label"
  | some ref =>
    match constructImageBlobURL parseRef ref with
    | .error e => .error e
    | .ok blobPrefixURL =>
      let layerConfig : LowerConfig := { digest := blobDigest, size := atoiD blobSize, dir := snDir }
      if parent = "" then
        let cfg : OBDConfig :=
          { imageRef := ref, repoBlobURL := blobPrefixURL,
            lowers := [{ dir := overlaybdBaseLayerDir }, layerConfig],
            resultFile := OverlaybdInitDebuglogPath snDir }
        .ok (writeConfig fs (goJoin snDir configFile) cfg)
      else
        match readConfig fs (goJoin parentDir configFile) with
        | .error e => .error e
        | .ok parentConf =>
          let url := if blobPrefixURL = "" then parentConf.repoBlobURL else blobPrefixURL
          let cfg : OBDConfig :=
            { imageRef := ref, repoBlobURL := url,
              lowers := parentConf.lowers ++ [layerConfig],
              resultFile := OverlaybdInitDebuglogPath snDir }
          .ok (writeConfig fs (goJoin snDir configFile) cfg)

/-- The new LowerConfig entry stamped by the turbo construction: this
layer's dir, the ext4-meta file name inside it, the target digest from
the labels, and the gzip index path when the media type is gzip. -/
def turboLower (labels : List (String × String)) (snDir : String) : LowerConfig :=
  { dir := snDir, file := goJoin snDir ext4FSMetaFile,
    targetDigest := (lookupA labels labelTurboOCIDigest).getD "",
    gzipIndex := if isGzipLayer ((lookupA labels labelTurboOCIMediaType).getD "")
                 then goJoin snDir gzipIndexFile else "" }

/-- ConstructTurboOCISpec: the turboOCI descriptor construction (the
blobDigest/blobSize arguments are passed but unused, as in the source). -/
def ConstructTurboOCISpec (parseRef : RefParser) (fs : ConfFS) (parent : String)
    (labels : List (String × String)) (snDir parentDir _blobDigest _blobSize : String) :
    Except String ConfFS :=
  let lower : LowerConfig := turboLower labels snDir
  if parent = "" then
    match lookupA labels imageRefLabel with
    | none => .error "no image-ref label"
    | some ref =>
      match constructImageBlobURL parseRef ref with
      | .error e => .error e
      | .ok blobPrefixURL =>
        let cfg : OBDConfig :=
          { imageRef := ref, repoBlobURL := blobPrefixURL, lowers := [lower],
            resultFile := OverlaybdInitDebuglogPath snDir }
        .ok (writeConfig fs (goJoin snDir configFile) cfg)
  else
    match readConfig fs (goJoin parentDir configFile) with
    | .error e => .error e
    | .ok parentConf =>
      let cfg : OBDConfig :=
        { repoBlobURL := parentConf.repoBlobURL, lowers := parentConf.lowers ++ [lower],
          resultFile := OverlaybdInitDebuglogPath snDir }
      .ok (writeConfig fs (goJoin snDir configFile) cfg)

/-- PreProcess of the overlaybd driver (part_004 lines 89-111): decides
skip-fetch from the labels and writes the plain or turbo descriptor.
Returns the skipFetch flag and the updated config file system. -/
def PreProcess (parseRef : RefParser) (fs : ConfFS) (keyDir parentDir parent : String)
    (labels : List (String × String)) : Except String (Bool × ConfFS) :=
  match lookupA labels labelKeyOverlayBDBlobSize, lookupA labels labelKeyOverlayBDBlobDigest with
  | some blobSize, some blobDigest =>
    match lookupA labels labelTurboOCIDigest with
    | some _ =>
      match ConstructTurboOCISpec parseRef fs parent labels keyDir parentDir blobDigest blobSize with
      | .ok fs2 => .ok (false, fs2)
      | .error e => .error e
    | none =>
      match ConstructOverlayBDSpec parseRef fs parent labels keyDir parentDir blobDigest blobSize with
      | .ok fs2 => .ok (true, fs2)
      | .error e => .error e
  | _, _ => .ok (false, fs)

/-! ## Mounts and the snapshotter Prepare (source: overlay_test.go lines 711-751) -/

def labelSnapshotRef : String := "containerd.io/snapshot.ref"

/-- A mount descriptor (containerd mount.Mount). -/
structure Mount where
  source : String
  mtype : String
  options : List String
deriving DecidableEq, Repr

/-- Results of the sub-operations Prepare delegates to, each being a call
into another component (metadata transaction, prepareLower, the driver's
PreProcess, the snapshotter Commit): the embedding quantifies over their
outcomes. -/
structure PrepareEnv where
  prepareLower : Except String (List Mount)
  preProcess : Except String Bool
  commitOp : Except String Unit
  txnCommit : Except String Unit

/-- What Prepare returns to its caller. -/
inductive PrepareResult
  | mounts (ms : List Mount)
  | alreadyExists
  | failed (e : String)
deriving DecidableEq, Repr

/-- Observable outcome of Prepare: the returned value and the Commit call
it performed, if any (committed name and key). -/
structure PrepareOut where
  result : PrepareResult
  committed : Option (String × String)
deriving DecidableEq, Repr

/-- Embedding of snapshotter.Prepare: prepareLower, then the driver's
PreProcess; on skipFetch commit the layer under the snapshot.ref label's
name and return the AlreadyExists sentinel, otherwise commit the
transaction and return the prepared mounts. -/
def Prepare (labels : List (String × String)) (key : String) (env : PrepareEnv) : PrepareOut :=
  match env.prepareLower with
  | .error e => ⟨.failed ("failed to prepare: " ++ e), none⟩
  | .ok mounts =>
    match env.preProcess with
    | .error e => ⟨.failed ("roDriver failed preparing layer: " ++ e), none⟩
    | .ok skipFetch =>
      if skipFetch then
        let name := (lookupA labels labelSnapshotRef).getD ""
        match env.commitOp with
        | .ok _ => ⟨.alreadyExists, some (name, key)⟩
        | .error e => ⟨.failed ("failed to commit layer: " ++ e), some (name, key)⟩
      else
        match env.txnCommit with
        | .ok _ => ⟨.mounts mounts, none⟩
        | .error e => ⟨.failed ("failed to commit layer: " ++ e), none⟩

/-! ## The attach state machine (source: doOverlayBD, part_004 lines 183-370)

Sysfs state is a record of which nodes exist plus whether the SIGINT
cleanup (killProcess) ran; each fallible kernel interaction is a field of
an environment record. Go defer semantics are modelled by a list of
registered compensations run in LIFO order at every error return. -/

/-- Outcome of the enable retry loop (write `1` to `<target>/enable`,
EAGAIN retried 100 times at 50 ms). -/
inductive EnableRes
  | ok
  | hardFail
  | eagainTimeout
deriving DecidableEq, Repr

/-- Outcome of the readiness wait, summarized for the attach flow
(the loop itself is modelled separately by readinessResult). -/
inductive DebugRes
  | success
  | fatal (content : String)
  | unreadableTimeout
deriving DecidableEq, Repr

/-- Which attach steps succeed in a given run. -/
structure AttachEnv where
  mkdirTarget : Bool
  writeControl1 : Bool
  writeControl2 : Bool
  removeDebugLog : Bool
  enable : EnableRes
  writeCmdTimeout : Bool
  debug : DebugRes
  mkdirLoopDev : Bool
  mkdirLun : Bool
  writeNexus : Bool
  symlink : Bool
  readAddress : Bool
  probe : Option String
deriving Repr

/-- The sysfs / process state doOverlayBD manipulates for one snID. -/
structure SysState where
  targetDir : Bool
  loopDev : Bool
  tpgt : Bool
  lun : Bool
  link : Bool
  sigint : Bool
deriving DecidableEq, Repr

def initState : SysState :=
  { targetDir := false, loopDev := false, tpgt := false, lun := false, link := false, sigint := false }

/-- Deferred compensation: remove the target-core dir. -/
def dTarget (s : SysState) : SysState := { s with targetDir := false }

/-- Deferred compensation: SIGINT the overlaybd-service process of this snID. -/
def dKill (s : SysState) : SysState := { s with sigint := true }

/-- Deferred compensation: remove lun, tpgt and the loopback dir. -/
def dLoop (s : SysState) : SysState := { s with lun := false, tpgt := false, loopDev := false }

/-- Deferred compensation: remove the LUN symlink. -/
def dLink (s : SysState) : SysState := { s with link := false }

/-- Run the registered compensations; the head of the list is the most
recently registered one (Go defers run in LIFO order). -/
def runDefers (ds : List (SysState → SysState)) (s : SysState) : SysState :=
  ds.foldl (fun s f => f s) s

/-- Embedding of doOverlayBD: each `if` mirrors one fallible step of the
source in order, compensations are registered exactly where the source
places its defer statements, and every error return runs the
compensations registered so far. A failing MkdirAll is modelled as
creating nothing (removal of its partial intermediate dirs, were any
created, is likewise unregistered at that point). -/
def doOverlayBD (env : AttachEnv) : Except String String × SysState :=
  if !env.mkdirTarget then (.error "failed to create target dir", initState)
  else
    let s0 : SysState := { initState with targetDir := true }
    let ds0 : List (SysState → SysState) := [dTarget]
    if !env.writeControl1 then (.error "failed to write target dev_config", runDefers ds0 s0)
    else if !env.writeControl2 then (.error "failed to write target max_data_area_mb", runDefers ds0 s0)
    else if !env.removeDebugLog then (.error "failed to remove result file", runDefers ds0 s0)
    else
      match env.enable with
      | .hardFail => (.error "failed to write enable", runDefers ds0 s0)
      | .eagainTimeout =>
        let ds1 := dKill :: ds0
        (.error "failed to write enable", runDefers ds1 s0)
      | .ok =>
        let ds1 := dKill :: ds0
        if !env.writeCmdTimeout then (.error "failed to update cmd_time_out", runDefers ds1 s0)
        else
          match env.debug with
          | .fatal c => (.error ("failed to enable target: " ++ c), runDefers ds1 s0)
          | .unreadableTimeout => (.error "failed to enable target: timeout", runDefers ds1 s0)
          | .success =>
            if !env.mkdirLoopDev then (.error "failed to create loopback dir", runDefers ds1 s0)
            else
              let s1 := { s0 with loopDev := true }
              if !env.mkdirLun then (.error "failed to create loopback lun dir", runDefers ds1 s1)
              else
                let s2 := { s1 with tpgt := true, lun := true }
                let ds2 := dLoop :: ds1
                if !env.writeNexus then (.error "failed to write loopback nexus", runDefers ds2 s2)
                else if !env.symlink then (.error "failed to create loopback link", runDefers ds2 s2)
                else
                  let s3 := { s2 with link := true }
                  let ds3 := dLink :: ds2
                  if !env.readAddress then (.error "failed to read loopback address", runDefers ds3 s3)
                  else
                    match env.probe with
                    | none => (.error "empty device found", runDefers ds3 s3)
                    | some dev => (.ok ("/dev/" ++ dev), s3)

/-- Whether the run reached the lun-directory creation step. -/
def reachedLunStep (env : AttachEnv) : Bool :=
  env.mkdirTarget && env.writeControl1 && env.writeControl2 && env.removeDebugLog &&
  (match env.enable with | .ok => true | _ => false) && env.writeCmdTimeout &&
  (match env.debug with | .success => true | _ => false) && env.mkdirLoopDev

/-- Whether the SIGINT compensation was registered (the source registers
it only after the enable retry loop, and a hard enable failure returns
before registration). -/
def killRegistered (env : AttachEnv) : Bool :=
  env.mkdirTarget && env.writeControl1 && env.writeControl2 && env.removeDebugLog &&
  (match env.enable with | .hardFail => false | _ => true)

/-- Attach environment in which every step succeeds except the creation
of the loopback lun directory. -/
def lunFailEnv : AttachEnv :=
  { mkdirTarget := true, writeControl1 := true, writeControl2 := true, removeDebugLog := true,
    enable := .ok, writeCmdTimeout := true, debug := .success, mkdirLoopDev := true,
    mkdirLun := false, writeNexus := true, symlink := true, readAddress := true,
    probe := some "sdb" }

/-! ## ActiveMount local-conversion step (source: part_004 lines 114-144) -/

def tmpTarIndex : String := "layer.tar.meta"

/-- The argument list built for the merge converter: starts from
`--workdir <snDir>/tmp` and prepends `--meta <parent meta>` for each
parent in list order (`args = append([]string{"--meta", p}, args...)`). -/
def mergeArgs (snDir : String) (metas : List String) : List String :=
  metas.foldl (fun args p => "--meta" :: p :: args) ["--workdir", goJoin snDir "tmp"]

/-- Embedding of step 0 of ActiveMount: each parent path is pointed at its
layer.tar.meta; if all of them exist the merge converter runs with
mergeArgs (`none` means the converter was not invoked); a non-zero
converter exit fails the ActiveMount. -/
def ActiveMountMergeStep (snDir : String) (parentPaths : List String)
    (fileExists : String → Bool) (converterExitOk : Bool) :
    Except String (Option (List String)) :=
  let metas := parentPaths.map (fun p => goJoin p tmpTarIndex)
  if metas.all fileExists then
    if converterExitOk then .ok (some (mergeArgs snDir metas))
    else .error "failed to merge image file"
  else .ok none

/-! ## Sparse-file quota Setup (source: sparsefile.go Setup and
createImageFile of part_005) -/

def sparseFileName : String := "rw.img"

/-- The directory the backing file is placed in: opts[base] when
non-empty, otherwise filepath.Base(target) — the source really calls
Base here, not Dir. -/
def sparseLocation (target : String) (opts : List (String × String)) : String :=
  let location := (lookupA opts "base").getD ""
  if location = "" then goBase target else location

/-- The backing-file directory as the specification words it:
opts[base] when non-empty, otherwise dirname(target). -/
def sparseLocationSpec (target : String) (opts : List (String × String)) : String :=
  let location := (lookupA opts "base").getD ""
  if location = "" then goDir target else location

/-- Which filesystem steps of Setup succeed in a given run. -/
structure SetupEnv where
  isMountpoint : Bool
  backingExists : Bool
  tempOk : Bool
  truncOk : Bool
  renameOk : Bool
  formatOk : Bool
  mountOk : Bool
deriving Repr

/-- Filesystem state touched by Setup: the created backing file (path and
size), whether a temp file is left behind, and whether the target got
mounted. -/
structure QuotaFSState where
  img : Option (String × Int)
  tmpLeft : Bool
  mounted : Bool
deriving DecidableEq, Repr

def initQuotaFS : QuotaFSState := { img := none, tmpLeft := false, mounted := false }

/-- createImageFile: make a temp file in the image's directory, truncate
it to the requested size, rename it over the image path; on a failure
after temp creation the temp file is removed. -/
def createImageFile (env : SetupEnv) (img : String) (size : Int) (s : QuotaFSState) :
    Except String Unit × QuotaFSState :=
  if !env.tempOk then (.error "tempfile", s)
  else
    let s1 := { s with tmpLeft := true }
    if !env.truncOk then (.error "truncate", { s1 with tmpLeft := false })
    else if !env.renameOk then (.error "rename", { s1 with tmpLeft := false })
    else (.ok (), { s1 with tmpLeft := false, img := some (img, size) })

/-- Embedding of sparseFileQuota.Setup. -/
def Setup (env : SetupEnv) (target : String) (size : Int) (opts : List (String × String))
    (defaultQuota : Int) : Except String Unit × QuotaFSState :=
  let location := sparseLocation target opts
  let size := if size ≤ 0 then defaultQuota else size
  if env.isMountpoint then (.ok (), initQuotaFS)
  else
    let sparseFile := goJoin location sparseFileName
    if !env.backingExists then
      match createImageFile env sparseFile size initQuotaFS with
      | (.error e, s) => (.error ("failed to create image file: " ++ e), s)
      | (.ok _, s) =>
        if !env.formatOk then (.error "failed to format image file", s)
        else if !env.mountOk then (.error "failed to mount image file", s)
        else (.ok (), { s with mounted := true })
    else
      if !env.mountOk then (.error "failed to mount image file", initQuotaFS)
      else (.ok (), { initQuotaFS with mounted := true })

/-! ## Cleanup directory selection (source: overlay_test.go lines 1157-1232) -/

/-- getCleanupDirectories: of the directory entries under
<root>/snapshots and <defaultUpperDir>/snapshots, select every one whose
name is not a key of the metadata store's live id map; Cleanup then
removes exactly the returned paths. -/
def getCleanupDirectories (root defaultUpperDir : String) (ids : List String)
    (dirs udirs : List String) : List String :=
  let snapshotDir := goJoin root "snapshots"
  let upperDir := goJoin defaultUpperDir "snapshots"
  let cleanup := dirs.foldl
    (fun acc d => if ids.contains d then acc else acc ++ [goJoin snapshotDir d]) []
  udirs.foldl
    (fun acc d => if ids.contains d then acc else acc ++ [goJoin upperDir d]) cleanup

/-! ## Path resolution and mount reconstruction (source: overlay_test.go
getActivePath, fsPath/upperPath/lowerPath, Active lines 780-814, Mounts
lines 970-1008) -/

def activePathLabel : String := "containerd.io/snapshot/overlay.active.path"

/-- The snapshot info fields these helpers read: the labels map (None for
a nil map) and the creation timestamp rendered as a string. -/
structure SnapInfo where
  labels : Option (List (String × String))
  created : String
deriving DecidableEq, Repr

/-- getActivePath: the caller-specified absolute location for an active
layer, or an error (not-found / invalid-argument). -/
def getActivePath (info : SnapInfo) (key : String) : Except String String :=
  match info.labels with
  | none => .error "active snapshot path is not specified"
  | some ls =>
    match lookupA ls activePathLabel with
    | none => .error "active snapshot path is not specified"
    | some home =>
      if !isAbsPath home then .error "path for active layer must be an absolute path"
      else if key = "" then .ok (goJoin (goJoin home ".rwlayer") info.created)
      else .ok (goJoin (goJoin home ".rwlayer") key)

/-- upperPath of the snapshotter. -/
def upperPath (root defaultUpperDir : String) (info : Option SnapInfo) (id key : String) : String :=
  match info with
  | some i =>
    match getActivePath i key with
    | .ok home => goJoin (goJoin home id) "upper"
    | .error _ =>
      if (lookupA (i.labels.getD []) "rwlayer").isSome then
        goJoin (goJoin (goJoin defaultUpperDir "snapshots") id) "upper"
      else goJoin (goJoin (goJoin root "snapshots") id) "upper"
  | none => goJoin (goJoin (goJoin root "snapshots") id) "upper"

/-- lowerPath of the snapshotter. -/
def lowerPath (root defaultUpperDir : String) (info : Option SnapInfo) (id key : String) : String :=
  match info with
  | some i =>
    match getActivePath i key with
    | .ok home => goJoin (goJoin home id) "lower"
    | .error _ =>
      if (lookupA (i.labels.getD []) "rwlayer").isSome then
        goJoin (goJoin (goJoin defaultUpperDir "snapshots") id) "lower"
      else goJoin (goJoin (goJoin root "snapshots") id) "lower"
  | none => goJoin (goJoin (goJoin root "snapshots") id) "lower"

/-- fsPath of the snapshotter. -/
def fsPath (root defaultUpperDir : String) (info : Option SnapInfo) (id key : String) : String :=
  match info with
  | some i =>
    match getActivePath i key with
    | .ok home => goJoin home id
    | .error _ =>
      if (lookupA (i.labels.getD []) "rwlayer").isSome then
        goJoin (goJoin defaultUpperDir "snapshots") id
      else goJoin (goJoin root "snapshots") id
  | none => goJoin (goJoin root "snapshots") id

/-- The overlay mount list Active returns (lines 799-814): lowerdir,
upperdir=<upper>/fs, workdir=<upper>/work, then index=off when the kernel
supports it, then userxattr when needed. -/
def ActiveOverlayMounts (indexOff userxattr : Bool) (root defaultUpperDir : String)
    (base : SnapInfo) (id key : String) : List Mount :=
  let upperDir := upperPath root defaultUpperDir (some base) id key
  let lowerDir := lowerPath root defaultUpperDir (some base) id key
  let fsDir := goJoin upperDir "fs"
  let workDir := goJoin upperDir "work"
  let options := ["lowerdir=" ++ lowerDir, "upperdir=" ++ fsDir, "workdir=" ++ workDir]
  let options := if indexOff then options ++ ["index=off"] else options
  let options := if userxattr then options ++ ["userxattr"] else options
  [{ source := "overlay", mtype := "overlay", options := options }]

/-- The mount list Mounts returns (lines 984-1007): when the upper
directory exists it rebuilds the overlay mount, otherwise it falls back
to the driver's GetMount. -/
def MountsResult (indexOff userxattr : Bool) (root defaultUpperDir : String)
    (info : SnapInfo) (id key : String) (upperExists : Bool) (driverMounts : List Mount) :
    List Mount :=
  let upperDir := upperPath root defaultUpperDir (some info) id key
  let lowerDir := lowerPath root defaultUpperDir (some info) id key
  let fsDir := goJoin upperDir "fs"
  let workDir := goJoin upperDir "work"
  if upperExists then
    let options := ["lowerdir=" ++ lowerDir, "upperdir=" ++ fsDir, "workdir=" ++ workDir]
    let options := if indexOff then options ++ ["index=off"] else options
    let options := if userxattr then options ++ ["userxattr"] else options
    [{ source := "overlay", mtype := "overlay", options := options }]
  else driverMounts

/-! ## Active-quota label handling (source: overlay_test.go lines
1281-1300, 823-856, 1085-1095) -/

def SnapshotterLabelOverlayActiveQuota : String := "containerd.io/snapshot.overlay.active-quota"

def MinActiveQuota : Int := 1024 * 1024 * 1024

def MaxActiveQuota : Int := 64 * 1024 * 1024 * 1024 * 1024

/-- Outcome of getActiveQuota. resource.MustParse of the k8s resource
library (outside this repository) panics on a syntactically invalid
quantity; the parser is abstracted as `parseQuantity`, with None meaning
a malformed quantity, in which case getActiveQuota does not return. -/
inductive QuotaOutcome
  | panicked
  | errNotFound
  | errOutOfRange
  | ok (n : Int)
deriving DecidableEq, Repr

/-- Embedding of getActiveQuota. -/
def getActiveQuota (labels : Option (List (String × String)))
    (parseQuantity : String → Option Int) : QuotaOutcome :=
  match labels with
  | none => .errNotFound
  | some ls =>
    match lookupA ls SnapshotterLabelOverlayActiveQuota with
    | none => .errNotFound
    | some q =>
      match parseQuantity q with
      | none => .panicked
      | some v => if v < MinActiveQuota ∨ v > MaxActiveQuota then .errOutOfRange else .ok v

/-- Outcome of the quota portion of prepareUpperDir / Remove: either the
getActiveQuota panic propagates, or the call proceeds and the field
records whether the quota provider was invoked. -/
inductive QuotaStep
  | panicked
  | proceed (invoked : Bool)
deriving DecidableEq, Repr

/-- The quota step of prepareUpperDir: errors from getActiveQuota are only
logged (activeQuota stays -1), and the provider runs iff a driver is
configured and the parsed quota is positive. -/
def prepareUpperDirQuota (hasDriver : Bool) (labels : Option (List (String × String)))
    (parseQuantity : String → Option Int) : QuotaStep :=
  match getActiveQuota labels parseQuantity with
  | .panicked => .panicked
  | .errNotFound => .proceed false
  | .errOutOfRange => .proceed false
  | .ok n => .proceed (hasDriver && decide (0 < n))

/-- The identical quota step inside Remove (lines 1085-1095). -/
def removeQuotaStep (hasDriver : Bool) (labels : Option (List (String × String)))
    (parseQuantity : String → Option Int) : QuotaStep :=
  match getActiveQuota labels parseQuantity with
  | .panicked => .panicked
  | .errNotFound => .proceed false
  | .errOutOfRange => .proceed false
  | .ok n => .proceed (hasDriver && decide (0 < n))

/-! ## Helper lemmas -/

theorem foldl_select_append (p : String → Bool) (f : String → String) :
    ∀ (l acc : List String),
      l.foldl (fun acc d => if p d then acc else acc ++ [f d]) acc =
        acc ++ (l.filter (fun d => !p d)).map f := by
  intro l
  induction l with
  | nil => intro acc; simp
  | cons d rest ih =>
    intro acc
    cases h : p d
    · simp [h, ih (acc ++ [f d])]
    · simp [h, ih acc]

theorem foldl_meta_prepend :
    ∀ (metas init : List String),
      metas.foldl (fun args p => "--meta" :: p :: args) init =
        (metas.reverse.map (fun p => ["--meta", p])).flatten ++ init := by
  intro metas
  induction metas with
  | nil => intro init; simp
  | cons m rest ih =>
    intro init
    simp only [List.foldl_cons, List.reverse_cons, List.map_append, List.flatten_append]
    rw [ih ("--meta" :: m :: init)]
    simp

/-! ## Claim theorems -/

/-- C7: for every Cleanup call, the set of directories removed is exactly
the entries of <root>/snapshots and <defaultUpperDir>/snapshots whose
names are not keys of the metadata store's live id map — every directory
named by a live id is kept, every other entry is selected for removal,
and no other path appears in the removal list. -/
theorem c7_cleanup_exact (root defaultUpperDir : String) (ids dirs udirs : List String) :
    getCleanupDirectories root defaultUpperDir ids dirs udirs =
      (dirs.filter (fun d => !ids.contains d)).map (fun d => goJoin (goJoin root "snapshots") d) ++
      (udirs.filter (fun d => !ids.contains d)).map
        (fun d => goJoin (goJoin defaultUpperDir "snapshots") d) := by
  dsimp only [getCleanupDirectories]
  rw [foldl_select_append (fun d => ids.contains d)
      (fun d => goJoin (goJoin root "snapshots") d) dirs []]
  rw [foldl_select_append (fun d => ids.contains d)
      (fun d => goJoin (goJoin defaultUpperDir "snapshots") d) udirs]
  simp

/-- C4 counterexample: with the debug-log readable but empty on the first
poll and `success` on the second, the claim says the empty content is
retried until the timeout (so the attach would succeed), but the code
fails immediately and fatally, reporting the empty content. -/
def c4Poll : Nat → Option String := fun i => if i = 0 then some "" else some "success"

theorem c4_counterexample :
    c4Poll 0 = some "" ∧ c4Poll 1 = some "success" ∧
    readinessResult c4Poll = .fatal "" ∧ ReadinessResult.fatal "" ≠ .ok := by
  refine ⟨rfl, rfl, ?_, by decide⟩
  rfl

/-- C4 (amended): the debug-log is polled up to 1000 times (20 s at 20 ms);
the first readable poll decides the outcome — content equal to `success`
succeeds, any other content (including empty) is an immediate fatal error
reported verbatim; only unreadable polls are retried, and if every poll
in the window is unreadable the attach times out. -/
theorem c4_amended (poll : Nat → Option String) :
    retryTimes = 1000 ∧
    readinessResult poll =
      (match firstRead poll 0 retryTimes with
        | none => ReadinessResult.timedOut
        | some d => if d = "success" then .ok else .fatal d) :=
  ⟨rfl, readinessAux_eq_firstRead poll retryTimes 0⟩

/-- C5 counterexample: with two parents, both carrying layer.tar.meta, the
converter argument list produced by the code lists the parents in reverse
order of the parent list, not in their chain order as claimed. -/
def c5Exists : String → Bool := fun _ => true

theorem c5_counterexample :
    ActiveMountMergeStep "/s" ["/p1", "/p2"] c5Exists true =
      .ok (some ["--meta", "/p2/layer.tar.meta", "--meta", "/p1/layer.tar.meta",
                 "--workdir", "/s/tmp"]) ∧
    ["--meta", "/p2/layer.tar.meta", "--meta", "/p1/layer.tar.meta", "--workdir", "/s/tmp"] ≠
      ["--meta", "/p1/layer.tar.meta", "--meta", "/p2/layer.tar.meta", "--workdir", "/s/tmp"] := by
  exact ⟨rfl, by decide⟩

/-- C5 (amended): when each parent's directory contains layer.tar.meta the
merge converter is invoked with one `--meta <parent>/layer.tar.meta` pair
per parent, the parents appearing in reverse order of the parent chain
list, followed by `--workdir <dir>/tmp` under the new layer; a non-zero
converter exit fails the ActiveMount; if some parent lacks the meta file
the converter is not invoked. -/
theorem c5_amended (snDir : String) (parentPaths : List String) (fileExists : String → Bool)
    (converterExitOk : Bool) :
    ((parentPaths.map (fun p => goJoin p tmpTarIndex)).all fileExists = true →
      (converterExitOk = true →
        ActiveMountMergeStep snDir parentPaths fileExists converterExitOk =
          .ok (some (((parentPaths.map (fun p => goJoin p tmpTarIndex)).reverse.map
                (fun p => ["--meta", p])).flatten ++ ["--workdir", goJoin snDir "tmp"]))) ∧
      (converterExitOk = false →
        ActiveMountMergeStep snDir parentPaths fileExists converterExitOk =
          .error "failed to merge image file")) ∧
    ((parentPaths.map (fun p => goJoin p tmpTarIndex)).all fileExists = false →
      ActiveMountMergeStep snDir parentPaths fileExists converterExitOk = .ok none) := by
  dsimp only [ActiveMountMergeStep, mergeArgs]
  refine ⟨fun hall => ⟨fun hok => ?_, fun hbad => ?_⟩, fun hnone => ?_⟩
  · rw [hall, hok]
    simp [foldl_meta_prepend]
  · rw [hall, hbad]
    simp
  · rw [hnone]
    simp

theorem c5_amended_witness :
    (["/p1", "/p2"].map (fun p => goJoin p tmpTarIndex)).all c5Exists = true ∧
    ActiveMountMergeStep "/s" ["/p1", "/p2"] c5Exists true =
      .ok (some (((["/p1", "/p2"].map (fun p => goJoin p tmpTarIndex)).reverse.map
            (fun p => ["--meta", p])).flatten ++ ["--workdir", goJoin "/s" "tmp"])) :=
  ⟨rfl, ((c5_amended "/s" ["/p1", "/p2"] c5Exists true).1 rfl).1 rfl⟩

/-- C8: overlay whiteout translation — an entry whose basename is the
opaque marker is dropped and trusted.overlay.opaque=y is set on its
directory; an entry whose basename starts with the whiteout marker is
dropped, a 0/0 character device is created at the prefix-stripped path
and chowned to the header's uid/gid; every other entry is kept. -/
theorem c8_whiteout (uid gid : Int) (p : String) :
    (goBase p = whiteoutOpaqueDir →
      OverlayConvertWhiteout uid gid p = (false, [.setOpaque (goDir p) "y"])) ∧
    (goBase p ≠ whiteoutOpaqueDir → strHasPre (goBase p) whiteoutMark = true →
      OverlayConvertWhiteout uid gid p =
        (false, [.mknodChar (goJoin (goDir p) (dropChars 4 (goBase p))) 0 0,
                 .chown (goJoin (goDir p) (dropChars 4 (goBase p))) uid gid])) ∧
    (goBase p ≠ whiteoutOpaqueDir → strHasPre (goBase p) whiteoutMark = false →
      OverlayConvertWhiteout uid gid p = (true, [])) := by
  unfold OverlayConvertWhiteout
  refine ⟨fun h1 => ?_, fun h1 h2 => ?_, fun h1 h2 => ?_⟩
  · simp [h1]
  · simp only [h1, h2]
    simp [h1]
    rfl
  · simp [h1, h2]

theorem c8_whiteout_witness :
    goBase "a/.wh.foo" ≠ whiteoutOpaqueDir ∧
    strHasPre (goBase "a/.wh.foo") whiteoutMark = true ∧
    OverlayConvertWhiteout 7 8 "a/.wh.foo" =
      (false, [.mknodChar (goJoin (goDir "a/.wh.foo") (dropChars 4 (goBase "a/.wh.foo"))) 0 0,
               .chown (goJoin (goDir "a/.wh.foo") (dropChars 4 (goBase "a/.wh.foo"))) 7 8]) ∧
    goJoin (goDir "a/.wh.foo") (dropChars 4 (goBase "a/.wh.foo")) = "a/foo" :=
  ⟨by decide, by decide, (c8_whiteout 7 8 "a/.wh.foo").2.1 (by decide) (by decide), by decide⟩

/-- C9: for a layer whose upper directory exists, Mounts rebuilds exactly
the overlay mount descriptor Active returned — type overlay, source
overlay, options lowerdir, upperdir=<upper>/fs, workdir=<upper>/work,
then index=off when supported, then userxattr when required, in this
order. -/
theorem c9_mounts_match_active (indexOff userxattr : Bool) (root defaultUpperDir : String)
    (info : SnapInfo) (id key : String) (driverMounts : List Mount) :
    MountsResult indexOff userxattr root defaultUpperDir info id key true driverMounts =
      ActiveOverlayMounts indexOff userxattr root defaultUpperDir info id key ∧
    ActiveOverlayMounts indexOff userxattr root defaultUpperDir info id key =
      [{ source := "overlay", mtype := "overlay",
         options := ["lowerdir=" ++ lowerPath root defaultUpperDir (some info) id key,
                     "upperdir=" ++ goJoin (upperPath root defaultUpperDir (some info) id key) "fs",
                     "workdir=" ++ goJoin (upperPath root defaultUpperDir (some info) id key) "work"] ++
                    (if indexOff then ["index=off"] else []) ++
                    (if userxattr then ["userxattr"] else []) }] := by
  constructor
  · rfl
  · unfold ActiveOverlayMounts
    cases indexOff <;> cases userxattr <;> simp

theorem lookupA_writeConfig (fs : ConfFS) (p : String) (c : OBDConfig) :
    lookupA (writeConfig fs p c) p = some c := by
  simp [writeConfig, lookupA]

theorem getLast?_append_single {α : Type} (a : α) :
    ∀ l : List α, (l ++ [a]).getLast? = some a := by
  intro l
  induction l with
  | nil => rfl
  | cons x xs ih =>
    rw [List.cons_append]
    cases hx : xs ++ [a] with
    | nil => exact absurd hx (by simp)
    | cons y ys => rw [List.getLast?_cons_cons, ← hx, ih]

theorem ConstructOverlayBDSpec_written (parseRef : RefParser) (fs : ConfFS) (parent : String)
    (labels : List (String × String)) (snDir parentDir bd bs : String) (fs2 : ConfFS)
    (h : ConstructOverlayBDSpec parseRef fs parent labels snDir parentDir bd bs = .ok fs2) :
    ∃ cfg, lookupA fs2 (goJoin snDir configFile) = some cfg ∧
      cfg.lowers.getLast? = some { digest := bd, size := atoiD bs, dir := snDir } := by
  unfold ConstructOverlayBDSpec at h
  cases hr : lookupA labels imageRefLabel with
  | none => simp only [hr] at h; exact absurd h (by simp)
  | some ref =>
    simp only [hr] at h
    cases hu : constructImageBlobURL parseRef ref with
    | error e => simp only [hu] at h; exact absurd h (by simp)
    | ok url =>
      simp only [hu] at h
      by_cases hpar : parent = ""
      · rw [if_pos hpar] at h
        simp only [Except.ok.injEq] at h
        subst h
        exact ⟨_, lookupA_writeConfig fs _ _, rfl⟩
      · rw [if_neg hpar] at h
        cases hpc : readConfig fs (goJoin parentDir configFile) with
        | error e => simp only [hpc] at h; exact absurd h (by simp)
        | ok pconf =>
          simp only [hpc, Except.ok.injEq] at h
          subst h
          refine ⟨_, lookupA_writeConfig fs _ _, ?_⟩
          exact getLast?_append_single _ pconf.lowers

theorem ConstructTurboOCISpec_written (parseRef : RefParser) (fs : ConfFS) (parent : String)
    (labels : List (String × String)) (snDir parentDir bd bs : String) (fs2 : ConfFS)
    (h : ConstructTurboOCISpec parseRef fs parent labels snDir parentDir bd bs = .ok fs2) :
    ∃ cfg, lookupA fs2 (goJoin snDir configFile) = some cfg ∧
      cfg.lowers.getLast? = some (turboLower labels snDir) := by
  unfold ConstructTurboOCISpec at h
  by_cases hpar : parent = ""
  · rw [if_pos hpar] at h
    cases hr : lookupA labels imageRefLabel with
    | none => simp only [hr] at h; exact absurd h (by simp)
    | some ref =>
      simp only [hr] at h
      cases hu : constructImageBlobURL parseRef ref with
      | error e => simp only [hu] at h; exact absurd h (by simp)
      | ok url =>
        simp only [hu, Except.ok.injEq] at h
        subst h
        exact ⟨_, lookupA_writeConfig fs _ _, rfl⟩
  · rw [if_neg hpar] at h
    cases hpc : readConfig fs (goJoin parentDir configFile) with
    | error e => simp only [hpc] at h; exact absurd h (by simp)
    | ok pconf =>
      simp only [hpc, Except.ok.injEq] at h
      subst h
      refine ⟨_, lookupA_writeConfig fs _ _, ?_⟩
      exact getLast?_append_single _ pconf.lowers

/-- C1: PreProcess with both blob-digest and blob-size labels and no
turbo-oci/target-digest label writes the plain overlaybd descriptor
(config.v1.json, last lower = this layer's digest/size/dir) and returns
skipFetch=true; with the turbo label present as well it writes the turbo
descriptor (last lower = ext4-meta file and target digest) and returns
skipFetch=false; with either blob label absent it returns skipFetch=false
and writes nothing. -/
theorem c1_preprocess (parseRef : RefParser) (fs : ConfFS) (keyDir parentDir parent : String)
    (labels : List (String × String)) :
    (∀ bs bd sf fs2,
      lookupA labels labelKeyOverlayBDBlobSize = some bs →
      lookupA labels labelKeyOverlayBDBlobDigest = some bd →
      lookupA labels labelTurboOCIDigest = none →
      PreProcess parseRef fs keyDir parentDir parent labels = .ok (sf, fs2) →
      sf = true ∧ ∃ cfg, lookupA fs2 (goJoin keyDir configFile) = some cfg ∧
        cfg.lowers.getLast? = some { digest := bd, size := atoiD bs, dir := keyDir }) ∧
    (∀ bs bd td sf fs2,
      lookupA labels labelKeyOverlayBDBlobSize = some bs →
      lookupA labels labelKeyOverlayBDBlobDigest = some bd →
      lookupA labels labelTurboOCIDigest = some td →
      PreProcess parseRef fs keyDir parentDir parent labels = .ok (sf, fs2) →
      sf = false ∧ (turboLower labels keyDir).targetDigest = td ∧
      (turboLower labels keyDir).file = goJoin keyDir ext4FSMetaFile ∧
      ∃ cfg, lookupA fs2 (goJoin keyDir configFile) = some cfg ∧
        cfg.lowers.getLast? = some (turboLower labels keyDir)) ∧
    ((lookupA labels labelKeyOverlayBDBlobSize = none ∨
      lookupA labels labelKeyOverlayBDBlobDigest = none) →
      PreProcess parseRef fs keyDir parentDir parent labels = .ok (false, fs)) := by
  refine ⟨?_, ?_, ?_⟩
  · intro bs bd sf fs2 h1 h2 h3 h4
    unfold PreProcess at h4
    simp only [h1, h2, h3] at h4
    cases hc : ConstructOverlayBDSpec parseRef fs parent labels keyDir parentDir bd bs with
    | error e => rw [hc] at h4; exact absurd h4 (by simp)
    | ok fs3 =>
      rw [hc] at h4
      simp only [Except.ok.injEq, Prod.mk.injEq] at h4
      obtain ⟨hsf, hfs⟩ := h4
      subst hfs
      exact ⟨hsf.symm,
        ConstructOverlayBDSpec_written parseRef fs parent labels keyDir parentDir bd bs _ hc⟩
  · intro bs bd td sf fs2 h1 h2 h3 h4
    unfold PreProcess at h4
    simp only [h1, h2, h3] at h4
    cases hc : ConstructTurboOCISpec parseRef fs parent labels keyDir parentDir bd bs with
    | error e => rw [hc] at h4; exact absurd h4 (by simp)
    | ok fs3 =>
      rw [hc] at h4
      simp only [Except.ok.injEq, Prod.mk.injEq] at h4
      obtain ⟨hsf, hfs⟩ := h4
      subst hfs
      refine ⟨hsf.symm, ?_, rfl,
        ConstructTurboOCISpec_written parseRef fs parent labels keyDir parentDir bd bs _ hc⟩
      simp [turboLower, h3]
  · intro h
    rcases h with h | h
    · simp [PreProcess, h]
    · cases hl1 : lookupA labels labelKeyOverlayBDBlobSize with
      | none => simp [PreProcess, hl1]
      | some bs => simp [PreProcess, hl1, h]

def c1ParseRef : RefParser := fun r => if r = "host/repo:tag" then some ("host", "repo") else none

def c1Labels : List (String × String) :=
  [(labelKeyOverlayBDBlobDigest, "sha256:x"), (labelKeyOverlayBDBlobSize, "5"),
   (imageRefLabel, "host/repo:tag")]

def c1FSW : ConfFS :=
  [(goJoin "/sn/7" configFile,
    { imageRef := "host/repo:tag", repoBlobURL := "https://host/v2/repo/blobs",
      lowers := [{ dir := overlaybdBaseLayerDir },
                 { digest := "sha256:x", size := 5, dir := "/sn/7" }],
      resultFile := OverlaybdInitDebuglogPath "/sn/7" })]

theorem c1_preprocess_witness :
    PreProcess c1ParseRef [] "/sn/7" "" "" c1Labels = .ok (true, c1FSW) ∧
    (true = true ∧ ∃ cfg, lookupA c1FSW (goJoin "/sn/7" configFile) = some cfg ∧
      cfg.lowers.getLast? = some { digest := "sha256:x", size := atoiD "5", dir := "/sn/7" }) := by
  constructor
  · rfl
  · exact (c1_preprocess c1ParseRef [] "/sn/7" "" "" c1Labels).1 "5" "sha256:x" true c1FSW
      rfl rfl rfl rfl

/-- C2: when the driver's pre-process reports skipFetch, Prepare commits
the layer under the name carried by the snapshot.ref label and returns
the AlreadyExists sentinel instead of mounts; when skipFetch is false it
commits the transaction and returns the mounts from prepareLower. -/
theorem c2_prepare_skipfetch (labels : List (String × String)) (key : String) (env : PrepareEnv) :
    (∀ ms name, env.prepareLower = .ok ms → env.preProcess = .ok true →
      lookupA labels labelSnapshotRef = some name → env.commitOp = .ok () →
      Prepare labels key env = ⟨.alreadyExists, some (name, key)⟩) ∧
    (∀ ms, env.prepareLower = .ok ms → env.preProcess = .ok false →
      env.txnCommit = .ok () →
      Prepare labels key env = ⟨.mounts ms, none⟩) := by
  constructor
  · intro ms name h1 h2 h3 h4
    simp [Prepare, h1, h2, h3, h4]
  · intro ms h1 h2 h3
    simp [Prepare, h1, h2, h3]

def c2Env : PrepareEnv :=
  { prepareLower := .ok [], preProcess := .ok true, commitOp := .ok (), txnCommit := .ok () }

theorem c2_prepare_witness :
    Prepare [(labelSnapshotRef, "img")] "k1" c2Env =
      ⟨.alreadyExists, some ("img", "k1")⟩ :=
  (c2_prepare_skipfetch [(labelSnapshotRef, "img")] "k1" c2Env).1 [] "img" rfl rfl rfl rfl

/-- C10: a present but syntactically invalid overlay.active-quota label
makes getActiveQuota panic (resource.MustParse) instead of returning an
error, and the panic propagates through the quota steps of
prepareUpperDir and Remove; getActiveQuota returns an error exactly for
an absent label (or nil labels) or a well-formed quantity outside
[1 GiB, 64 TiB], and on those errors the quota provider is not invoked. -/
theorem c10_quota_panic (ls : List (String × String)) (parseQuantity : String → Option Int)
    (hasDriver : Bool) :
    (∀ q, lookupA ls SnapshotterLabelOverlayActiveQuota = some q → parseQuantity q = none →
      getActiveQuota (some ls) parseQuantity = .panicked ∧
      prepareUpperDirQuota hasDriver (some ls) parseQuantity = .panicked ∧
      removeQuotaStep hasDriver (some ls) parseQuantity = .panicked) ∧
    ((getActiveQuota (some ls) parseQuantity = .errNotFound ∨
      getActiveQuota (some ls) parseQuantity = .errOutOfRange) ↔
      (lookupA ls SnapshotterLabelOverlayActiveQuota = none ∨
       ∃ q n, lookupA ls SnapshotterLabelOverlayActiveQuota = some q ∧
         parseQuantity q = some n ∧ (n < MinActiveQuota ∨ n > MaxActiveQuota))) ∧
    ((getActiveQuota (some ls) parseQuantity = .errNotFound ∨
      getActiveQuota (some ls) parseQuantity = .errOutOfRange) →
      prepareUpperDirQuota hasDriver (some ls) parseQuantity = .proceed false ∧
      removeQuotaStep hasDriver (some ls) parseQuantity = .proceed false) ∧
    getActiveQuota none parseQuantity = .errNotFound := by
  refine ⟨?_, ?_, ?_, rfl⟩
  · intro q h1 h2
    simp [getActiveQuota, prepareUpperDirQuota, removeQuotaStep, h1, h2]
  · cases hl : lookupA ls SnapshotterLabelOverlayActiveQuota with
    | none => simp [getActiveQuota, hl]
    | some q0 =>
      cases hp : parseQuantity q0 with
      | none => simp [getActiveQuota, hl, hp]
      | some v =>
        by_cases hr : v < MinActiveQuota ∨ v > MaxActiveQuota
        · simp [getActiveQuota, hl, hp, hr]
        · simp [getActiveQuota, hl, hp, hr]
  · intro h
    rcases h with h | h <;>
      simp [prepareUpperDirQuota, removeQuotaStep, h]

def c10Labels : List (String × String) := [(SnapshotterLabelOverlayActiveQuota, "bogus")]

def c10NoParse : String → Option Int := fun _ => none

theorem c10_quota_witness :
    lookupA c10Labels SnapshotterLabelOverlayActiveQuota = some "bogus" ∧
    getActiveQuota (some c10Labels) c10NoParse = .panicked ∧
    prepareUpperDirQuota true (some c10Labels) c10NoParse = .panicked ∧
    removeQuotaStep true (some c10Labels) c10NoParse = .panicked := by
  have h := (c10_quota_panic c10Labels c10NoParse true).1 "bogus" rfl rfl
  exact ⟨rfl, h.1, h.2.1, h.2.2⟩

/-- C3 counterexample: when every attach step succeeds up to the creation
of the loopback lun directory and that creation fails, doOverlayBD
returns an error but the loopback node directory naa.199…<snID> survives
(its removal is only registered after the lun creation succeeds), so the
failed attach does not leave the clean Absent state the claim requires. -/
theorem c3_counterexample :
    isErr (doOverlayBD lunFailEnv).1 = true ∧
    (doOverlayBD lunFailEnv).2 ≠
      { targetDir := false, loopDev := false, tpgt := false, lun := false,
        link := false, sigint := true } ∧
    (doOverlayBD lunFailEnv).2.loopDev = true := by
  refine ⟨rfl, by decide, rfl⟩

/-- C3 (amended): a failed attach always removes the target-core dir, the
LUN symlink and the lun and tpgt dirs; the loopback node dir is removed
except in the single case where its lun-subdirectory creation itself
fails (then it survives); and the SIGINT compensation runs exactly when
the failure happens at or after the point where the source registers it
(after the enable retry loop, which a hard enable-write failure
precedes). -/
theorem c3_amended (env : AttachEnv) (h : isErr (doOverlayBD env).1 = true) :
    (doOverlayBD env).2 =
      { targetDir := false, loopDev := reachedLunStep env && !env.mkdirLun,
        tpgt := false, lun := false, link := false,
        sigint := killRegistered env } := by
  rcases env with ⟨mt, w1, w2, rd, en, wc, dbg, mld, mlun, wn, sl, ra, pr⟩
  cases mt with
  | false => simp [doOverlayBD, reachedLunStep, killRegistered, initState]
  | true =>
  cases w1 with
  | false => simp [doOverlayBD, runDefers, dTarget, reachedLunStep, killRegistered, initState]
  | true =>
  cases w2 with
  | false => simp [doOverlayBD, runDefers, dTarget, reachedLunStep, killRegistered, initState]
  | true =>
  cases rd with
  | false => simp [doOverlayBD, runDefers, dTarget, reachedLunStep, killRegistered, initState]
  | true =>
  cases en with
  | hardFail =>
    simp [doOverlayBD, runDefers, dTarget, reachedLunStep, killRegistered, initState]
  | eagainTimeout =>
    simp [doOverlayBD, runDefers, dTarget, dKill, reachedLunStep, killRegistered, initState]
  | ok =>
  cases wc with
  | false => simp [doOverlayBD, runDefers, dTarget, dKill, reachedLunStep, killRegistered, initState]
  | true =>
  cases dbg with
  | fatal c =>
    simp [doOverlayBD, runDefers, dTarget, dKill, reachedLunStep, killRegistered, initState]
  | unreadableTimeout =>
    simp [doOverlayBD, runDefers, dTarget, dKill, reachedLunStep, killRegistered, initState]
  | success =>
  cases mld with
  | false => simp [doOverlayBD, runDefers, dTarget, dKill, reachedLunStep, killRegistered, initState]
  | true =>
  cases mlun with
  | false => simp [doOverlayBD, runDefers, dTarget, dKill, reachedLunStep, killRegistered, initState]
  | true =>
  cases wn with
  | false =>
    simp [doOverlayBD, runDefers, dTarget, dKill, dLoop, reachedLunStep, killRegistered, initState]
  | true =>
  cases sl with
  | false =>
    simp [doOverlayBD, runDefers, dTarget, dKill, dLoop, reachedLunStep, killRegistered, initState]
  | true =>
  cases ra with
  | false =>
    simp [doOverlayBD, runDefers, dTarget, dKill, dLoop, dLink, reachedLunStep, killRegistered,
      initState]
  | true =>
  cases pr with
  | none =>
    simp [doOverlayBD, runDefers, dTarget, dKill, dLoop, dLink, reachedLunStep, killRegistered,
      initState]
  | some dev => simp [doOverlayBD, isErr] at h

theorem c3_amended_witness :
    isErr (doOverlayBD lunFailEnv).1 = true ∧
    (doOverlayBD lunFailEnv).2 =
      { targetDir := false, loopDev := reachedLunStep lunFailEnv && !lunFailEnv.mkdirLun,
        tpgt := false, lun := false, link := false,
        sigint := killRegistered lunFailEnv } :=
  ⟨rfl, c3_amended lunFailEnv rfl⟩

/-- C6: the code at the failing input — Setup with no `base` option on
target /var/lib/overlay/5/upper creates the backing file at the
cwd-relative path upper/rw.img (filepath.Base of the target), while the
claim and §4.3 of the spec put it at /var/lib/overlay/5/rw.img
(dirname of the target). -/
def c6Env : SetupEnv :=
  { isMountpoint := false, backingExists := false, tempOk := true, truncOk := true,
    renameOk := true, formatOk := true, mountOk := true }

theorem c6_setup_base_bug :
    sparseLocation "/var/lib/overlay/5/upper" [] = "upper" ∧
    sparseLocationSpec "/var/lib/overlay/5/upper" [] = "/var/lib/overlay/5" ∧
    (Setup c6Env "/var/lib/overlay/5/upper" 2147483648 [] 10737418240).2.img =
      some ("upper/rw.img", 2147483648) ∧
    (Setup c6Env "/var/lib/overlay/5/upper" 2147483648 [] 10737418240).1 = .ok () ∧
    goJoin (sparseLocationSpec "/var/lib/overlay/5/upper" []) sparseFileName =
      "/var/lib/overlay/5/rw.img" ∧
    "upper/rw.img" ≠ "/var/lib/overlay/5/rw.img" := by
  refine ⟨by decide, by decide, rfl, rfl, by decide, by decide⟩

end OverlaySnap
